import Mathlib

/-!
Shallow embedding of `src/example_argparse_usage.py`, a command-line utility
that counts the lines of a text file with optional test mode and logging.

Modelling choices:
- The filesystem is a function `String → Option (List Char)`: `none` means the
  path does not exist, `some content` gives the decoded UTF-8 text of the file
  (newlines normalised to a single newline character, as Python's text mode does).
- `readlines` mirrors Python's `file.readlines()`: split the text after every
  newline character, keeping the newline in each piece; a final piece without a
  trailing newline is still a line; the empty text yields no lines.
- Log records are collected in lists instead of being written to handlers; the
  logging configuration produced by `set_logger` carries the sink destination
  and the numeric severity threshold, and `emitted` applies the threshold filter
  exactly as the `logging` module does.
- `main` returns a `RunResult` describing the observable effects of one run:
  exit code, standard output lines, whether a usage error went to standard
  error, the log records reaching the console and the log file, whether
  `logfile.log` was created, and whether the filesystem was touched.
-/

namespace ArgparseExample

/-- Severity levels of the Python `logging` module used by the program. -/
inductive LogLevel
  | DEBUG
  | INFO
  | WARNING
  | ERROR
  | CRITICAL
deriving DecidableEq, Repr

/-- Numeric value of each severity, as in the Python `logging` module. -/
def LogLevel.value : LogLevel → Nat
  | .DEBUG => 10
  | .INFO => 20
  | .WARNING => 30
  | .ERROR => 40
  | .CRITICAL => 50

/-- One log record handed to the logging facility: severity plus message. -/
structure LogRecord where
  level : LogLevel
  msg : String
deriving DecidableEq, Repr

/-- The parsed argument record produced by `parse_arguments`
(the InvocationConfig of the specification). -/
structure Args where
  filepath : String
  test : Bool
  log_level : String
  log_to_file : Bool
deriving DecidableEq, Repr

/-- The `choices` list of the `--log-level` option (source lines 21-26). -/
def logLevelChoices : List String := ["DEBUG", "INFO", "WARNING", "ERROR", "CRITICAL"]

/-- A token is treated as an optional argument by argparse when its first
character is the prefix character `-`. -/
def isFlagLike (t : String) : Bool := t.data.head? = some '-'

/-- Core loop of the argument parsing declared in `parse_arguments`
(source lines 6-34): one required positional `filepath`, the presence flags
`-t`/`--test` and `--log-to-file`, and `--log-level` taking one value that
must be among `logLevelChoices` (compared case-sensitively, as argparse does).
On any violation argparse reports a usage error; we return `Except.error` with
the gist of its message. -/
def parseLoop : List String → Option String → Bool → String → Bool → Except String Args
  | [], pos, t, ll, ltf =>
    match pos with
    | none => .error "the following arguments are required: filepath"
    | some fp => .ok { filepath := fp, test := t, log_level := ll, log_to_file := ltf }
  | tok :: rest, pos, t, ll, ltf =>
    if tok = "-t" ∨ tok = "--test" then
      parseLoop rest pos true ll ltf
    else if tok = "--log-to-file" then
      parseLoop rest pos t ll true
    else if tok = "--log-level" then
      match rest with
      | [] => .error "argument --log-level: expected one argument"
      | v :: rest2 =>
        if v ∈ logLevelChoices then
          parseLoop rest2 pos t v ltf
        else
          .error ("argument --log-level: invalid choice: " ++ v)
    else if isFlagLike tok then
      .error ("unrecognized arguments: " ++ tok)
    else
      match pos with
      | none => parseLoop rest (some tok) t ll ltf
      | some _ => .error ("unrecognized arguments: " ++ tok)

/-- `parse_arguments` (source lines 6-34) applied to the argument vector.
Defaults: `test = false` (store_true), `log_level = "WARNING"`,
`log_to_file = false` (store_true). -/
def parse_arguments (argv : List String) : Except String Args :=
  parseLoop argv none false "WARNING" false

/-- Python's `str.upper()` on ASCII text, used on `args.log_level` in
`set_logger` (source lines 41 and 47). -/
def pyUpper (s : String) : String := String.mk (s.data.map Char.toUpper)

/-- The numeric level `logging.basicConfig` associates to a level name. -/
def levelNumber (s : String) : Nat :=
  if s = "DEBUG" then 10
  else if s = "INFO" then 20
  else if s = "WARNING" then 30
  else if s = "ERROR" then 40
  else if s = "CRITICAL" then 50
  else 0

/-- The logging configuration established by `logging.basicConfig`:
the sink (a fixed-name file when `filename` is set, the console otherwise)
and the minimum severity threshold. -/
structure LoggerConfig where
  filename : Option String
  threshold : Nat
deriving DecidableEq, Repr

/-- `set_logger` (source lines 36-50): with `--log-to-file` the sink is the
fixed-name file `logfile.log`, otherwise the console; in both cases the
threshold is the upper-cased `log_level`. -/
def set_logger (args : Args) : LoggerConfig :=
  if args.log_to_file then
    { filename := some "logfile.log", threshold := levelNumber (pyUpper args.log_level) }
  else
    { filename := none, threshold := levelNumber (pyUpper args.log_level) }

/-- The records a sink actually emits: those at or above the threshold;
records below the threshold are discarded. -/
def emitted (cfg : LoggerConfig) (logs : List LogRecord) : List LogRecord :=
  logs.filter (fun r => cfg.threshold ≤ r.level.value)

/-- Helper of `readlines`: walk the text accumulating the current line
(in reverse); after each newline character close the line, keeping the
newline; at the end a non-empty partial line is still a line. -/
def splitLinesAux : List Char → List Char → List (List Char)
  | [], acc => if acc.isEmpty then [] else [acc.reverse]
  | c :: cs, acc =>
    if c = '\n' then
      (acc.reverse ++ ['\n']) :: splitLinesAux cs []
    else
      splitLinesAux cs (c :: acc)

/-- Python's `f.readlines()` on the decoded text (source line 64). -/
def readlines (content : List Char) : List (List Char) := splitLinesAux content []

/-- Observable effects of one call to `count_lines_in_file`. -/
structure CountResult where
  stdout : List String
  logs : List LogRecord
  fsAccessed : Bool
deriving DecidableEq, Repr

/-- `count_lines_in_file` (source lines 53-68). In test mode: one INFO record,
no filesystem access, no standard output. Otherwise, a missing file yields one
ERROR record and no output; an existing file is read, its lines counted, two
INFO records are logged and one summary line is printed. -/
def count_lines_in_file (fs : String → Option (List Char)) (filepath : String)
    (test_mode : Bool) : CountResult :=
  if test_mode then
    { stdout := []
      logs := [⟨.INFO, "Test mode: skipping actual file processing."⟩]
      fsAccessed := false }
  else
    match fs filepath with
    | none =>
      { stdout := []
        logs := [⟨.ERROR, "File not found: " ++ filepath⟩]
        fsAccessed := true }
    | some content =>
      let line_count := (readlines content).length
      { stdout := [" " ++ filepath ++ " has " ++ toString line_count ++ " lines."]
        logs := [⟨.INFO, "Processed file: " ++ filepath⟩,
                 ⟨.INFO, "Total lines: " ++ toString line_count⟩]
        fsAccessed := true }

/-- Observable outcome of one process run. -/
structure RunResult where
  exitCode : Nat
  stdout : List String
  usageErrorToStderr : Bool
  consoleLogs : List LogRecord
  fileLogs : List LogRecord
  logfileCreated : Bool
  fsAccessed : Bool
deriving DecidableEq, Repr

/-- `main` (source lines 70-73): parse the arguments (argparse exits with
code 2 and a usage message on standard error when parsing fails, before any
logging configuration or file access), configure logging, run the line
counter, and exit 0. Records below the threshold are discarded; the rest go
to `logfile.log` when `--log-to-file` was given and to the console otherwise;
`logging.basicConfig` with a filename creates the log file. -/
def main (fs : String → Option (List Char)) (argv : List String) : RunResult :=
  match parse_arguments argv with
  | .error _ =>
    { exitCode := 2, stdout := [], usageErrorToStderr := true,
      consoleLogs := [], fileLogs := [], logfileCreated := false, fsAccessed := false }
  | .ok args =>
    let cfg := set_logger args
    let res := count_lines_in_file fs args.filepath args.test
    { exitCode := 0
      stdout := res.stdout
      usageErrorToStderr := false
      consoleLogs := if cfg.filename.isSome then [] else emitted cfg res.logs
      fileLogs := if cfg.filename.isSome then emitted cfg res.logs else []
      logfileCreated := cfg.filename.isSome
      fsAccessed := res.fsAccessed }

/-! Helper lemmas -/

/-- Splitting a newline-free line followed by a newline closes exactly that line. -/
lemma splitLinesAux_append_newline :
    ∀ (l acc rest : List Char), '\n' ∉ l →
      splitLinesAux (l ++ '\n' :: rest) acc
        = (acc.reverse ++ l ++ ['\n']) :: splitLinesAux rest []
  | [], acc, rest, _ => by simp [splitLinesAux]
  | c :: l, acc, rest, hl => by
    have hc : ¬ (c = '\n') := fun hc => hl (by simp [hc])
    have hl' : '\n' ∉ l := fun hm => hl (List.mem_cons_of_mem c hm)
    simp only [List.cons_append, splitLinesAux, if_neg hc, List.append_eq]
    rw [splitLinesAux_append_newline l (c :: acc) rest hl']
    simp

/-- `readlines` recovers exactly the newline-terminated lines a text was
assembled from. -/
lemma readlines_join :
    ∀ (ls : List (List Char)), (∀ l ∈ ls, '\n' ∉ l) →
      readlines ((ls.map (fun l => l ++ ['\n'])).flatten) = ls.map (fun l => l ++ ['\n'])
  | [], _ => by simp [readlines, splitLinesAux]
  | l :: ls, h => by
    have hl : '\n' ∉ l := h l (List.mem_cons_self l ls)
    have hls : ∀ x ∈ ls, '\n' ∉ x := fun x hx => h x (List.mem_cons_of_mem l hx)
    have hjoin : ((l :: ls).map (fun x => x ++ ['\n'])).flatten
        = l ++ '\n' :: ((ls.map (fun x => x ++ ['\n'])).flatten) := by
      simp
    have ih := readlines_join ls hls
    simp only [readlines] at ih ⊢
    rw [hjoin, splitLinesAux_append_newline l [] _ hl, ih]
    simp

/-- A token whose first character is not `-` is none of the four option strings. -/
lemma not_flag_tokens (fp : String) (h : isFlagLike fp = false) :
    fp ≠ "-t" ∧ fp ≠ "--test" ∧ fp ≠ "--log-to-file" ∧ fp ≠ "--log-level" := by
  refine ⟨?_, ?_, ?_, ?_⟩ <;> rintro rfl <;> exact absurd h (by decide)

/-- Parsing a lone positional filepath yields all defaults. -/
lemma parse_arguments_single (fp : String) (h : isFlagLike fp = false) :
    parse_arguments [fp]
      = .ok { filepath := fp, test := false, log_level := "WARNING", log_to_file := false } := by
  obtain ⟨h1, h2, h3, h4⟩ := not_flag_tokens fp h
  simp [parse_arguments, parseLoop, h1, h2, h3, h4, h]

/-- Parsing the filepath followed by `--test` sets only the test flag. -/
lemma parse_arguments_test (fp : String) (h : isFlagLike fp = false) :
    parse_arguments [fp, "--test"]
      = .ok { filepath := fp, test := true, log_level := "WARNING", log_to_file := false } := by
  obtain ⟨h1, h2, h3, h4⟩ := not_flag_tokens fp h
  simp [parse_arguments, parseLoop, h1, h2, h3, h4, h]

/-- Parsing the filepath followed by `--log-to-file` sets only that flag. -/
lemma parse_arguments_log_to_file (fp : String) (h : isFlagLike fp = false) :
    parse_arguments [fp, "--log-to-file"]
      = .ok { filepath := fp, test := false, log_level := "WARNING", log_to_file := true } := by
  obtain ⟨h1, h2, h3, h4⟩ := not_flag_tokens fp h
  simp [parse_arguments, parseLoop, h1, h2, h3, h4, h]

/-- Parsing with an in-set `--log-level` value records that value. -/
lemma parse_arguments_log_level_ok (fp v : String) (h : isFlagLike fp = false)
    (hv : v ∈ logLevelChoices) :
    parse_arguments [fp, "--log-level", v]
      = .ok { filepath := fp, test := false, log_level := v, log_to_file := false } := by
  obtain ⟨h1, h2, h3, h4⟩ := not_flag_tokens fp h
  simp [parse_arguments, parseLoop, h1, h2, h3, h4, h, hv]

/-- Parsing with an out-of-set `--log-level` value is a usage error. -/
lemma parse_arguments_log_level_bad (fp v : String) (h : isFlagLike fp = false)
    (hv : v ∉ logLevelChoices) :
    parse_arguments [fp, "--log-level", v]
      = .error ("argument --log-level: invalid choice: " ++ v) := by
  obtain ⟨h1, h2, h3, h4⟩ := not_flag_tokens fp h
  simp [parse_arguments, parseLoop, h1, h2, h3, h4, h, hv]

/-! Claim theorems -/

/-- C1: for every existing file whose text is exactly `N` newline-terminated
lines, a run in non-test mode with default flags prints a message reporting a
line count of `N` and exits 0. -/
theorem claim_C1_newline_terminated_count
    (fs : String → Option (List Char)) (fp : String) (ls : List (List Char))
    (hfp : isFlagLike fp = false)
    (hls : ∀ l ∈ ls, '\n' ∉ l)
    (hfs : fs fp = some ((ls.map (fun l => l ++ ['\n'])).flatten)) :
    (main fs [fp]).stdout
      = [" " ++ fp ++ " has " ++ toString ls.length ++ " lines."] ∧
    (main fs [fp]).exitCode = 0 := by
  have hp := parse_arguments_single fp hfp
  have hr := readlines_join ls hls
  constructor <;>
    simp [main, hp, count_lines_in_file, hfs, hr]

/-- C1 witness: the file `a.txt` with contents `"x\ny\nz\n"` prints exactly
` a.txt has 3 lines.` and exits 0. -/
theorem claim_C1_newline_terminated_count_witness :
    (main (fun p => if p = "a.txt" then some ("x\ny\nz\n".data) else none)
        ["a.txt"]).stdout = [" a.txt has 3 lines."] ∧
    (main (fun p => if p = "a.txt" then some ("x\ny\nz\n".data) else none)
        ["a.txt"]).exitCode = 0 := by
  have h := claim_C1_newline_terminated_count
    (fun p => if p = "a.txt" then some ("x\ny\nz\n".data) else none)
    "a.txt" [['x'], ['y'], ['z']] (by decide) (by decide) (by decide)
  exact ⟨by rw [h.1]; decide, h.2⟩

/-- C2: on the success path exactly one line goes to standard output, and it
is exactly ` <filepath> has <lineCount> lines.` with the leading space, the
final period and the invariable word "lines". -/
theorem claim_C2_stdout_exact_format
    (fs : String → Option (List Char)) (fp : String) (content : List Char)
    (hfp : isFlagLike fp = false)
    (hfs : fs fp = some content) :
    (main fs [fp]).stdout
      = [" " ++ fp ++ " has " ++ toString (readlines content).length ++ " lines."] := by
  have hp := parse_arguments_single fp hfp
  simp [main, hp, count_lines_in_file, hfs]

/-- C2 witness: a one-line file prints ` a.txt has 1 lines.` — one output
line, and "lines" even for a count of 1. -/
theorem claim_C2_stdout_exact_format_witness :
    (main (fun p => if p = "a.txt" then some ("x\n".data) else none)
        ["a.txt"]).stdout = [" a.txt has 1 lines."] := by
  have h := claim_C2_stdout_exact_format
    (fun p => if p = "a.txt" then some ("x\n".data) else none)
    "a.txt" ("x\n".data) (by decide) (by decide)
  rw [h]; decide

/-- C3: for a nonexistent filepath in non-test mode, exactly one ERROR record
`File not found: <filepath>` is produced (and, at the default WARNING
threshold, reaches the console sink), nothing goes to standard output, and the
process exits 0. -/
theorem claim_C3_file_not_found
    (fs : String → Option (List Char)) (fp : String)
    (hfp : isFlagLike fp = false)
    (hfs : fs fp = none) :
    (count_lines_in_file fs fp false).logs
      = [⟨.ERROR, "File not found: " ++ fp⟩] ∧
    (main fs [fp]).stdout = [] ∧
    (main fs [fp]).exitCode = 0 ∧
    (main fs [fp]).consoleLogs = [⟨.ERROR, "File not found: " ++ fp⟩] ∧
    (main fs [fp]).fileLogs = [] := by
  have hp := parse_arguments_single fp hfp
  refine ⟨?_, ?_, ?_, ?_, ?_⟩ <;>
    simp [main, hp, count_lines_in_file, hfs, set_logger, emitted, pyUpper,
      levelNumber, LogLevel.value]

/-- C3 witness: running on `missing.txt` over an empty filesystem. -/
theorem claim_C3_file_not_found_witness :
    (count_lines_in_file (fun _ => none) "missing.txt" false).logs
      = [⟨.ERROR, "File not found: missing.txt"⟩] ∧
    (main (fun _ => none) ["missing.txt"]).stdout = [] ∧
    (main (fun _ => none) ["missing.txt"]).exitCode = 0 := by
  have h := claim_C3_file_not_found (fun _ => none) "missing.txt" (by decide) (by decide)
  exact ⟨by rw [h.1]; decide, h.2.1, h.2.2.1⟩

/-- C4: the argument resolver accepts a `--log-level` value exactly when it is
one of the five case-sensitive choice strings; any other value is a usage
error: non-zero exit, usage text on standard error, and no logging
configuration, no log records and no file access. -/
theorem claim_C4_log_level_choices
    (fs : String → Option (List Char)) (fp v : String)
    (hfp : isFlagLike fp = false) :
    ((parse_arguments [fp, "--log-level", v]).toOption.isSome = true
        ↔ v ∈ logLevelChoices) ∧
    (v ∈ logLevelChoices →
      parse_arguments [fp, "--log-level", v]
        = .ok { filepath := fp, test := false, log_level := v, log_to_file := false }) ∧
    (v ∉ logLevelChoices →
      (main fs [fp, "--log-level", v]).exitCode ≠ 0 ∧
      (main fs [fp, "--log-level", v]).usageErrorToStderr = true ∧
      (main fs [fp, "--log-level", v]).fsAccessed = false ∧
      (main fs [fp, "--log-level", v]).logfileCreated = false ∧
      (main fs [fp, "--log-level", v]).consoleLogs = [] ∧
      (main fs [fp, "--log-level", v]).fileLogs = [] ∧
      (main fs [fp, "--log-level", v]).stdout = []) := by
  refine ⟨?_, ?_, ?_⟩
  · constructor
    · intro hsome
      by_contra hv
      rw [parse_arguments_log_level_bad fp v hfp hv] at hsome
      simp [Except.toOption] at hsome
    · intro hv
      rw [parse_arguments_log_level_ok fp v hfp hv]
      simp [Except.toOption]
  · intro hv
    exact parse_arguments_log_level_ok fp v hfp hv
  · intro hv
    have hb := parse_arguments_log_level_bad fp v hfp hv
    refine ⟨?_, ?_, ?_, ?_, ?_, ?_, ?_⟩ <;> simp [main, hb]

/-- C4 witness: `--log-level BOGUS` is rejected with a non-zero exit and no
side effects, and `BOGUS` is not among the choices. -/
theorem claim_C4_log_level_choices_witness :
    (main (fun _ => none) ["a.txt", "--log-level", "BOGUS"]).exitCode ≠ 0 ∧
    (main (fun _ => none) ["a.txt", "--log-level", "BOGUS"]).usageErrorToStderr = true ∧
    (main (fun _ => none) ["a.txt", "--log-level", "BOGUS"]).fsAccessed = false ∧
    ¬ ("BOGUS" ∈ logLevelChoices) := by
  have h := claim_C4_log_level_choices (fun _ => none) "a.txt" "BOGUS" (by decide)
  have h3 := h.2.2 (by decide)
  exact ⟨h3.1, h3.2.1, h3.2.2.1, by decide⟩

/-- C5: in test mode the line counter performs no filesystem access, writes
nothing to standard output and produces exactly one INFO record
`Test mode: skipping actual file processing.`; the run with `--test` and no
other flags exits 0 with empty standard output and no filesystem access,
whatever the filesystem holds. -/
theorem claim_C5_test_mode_frame
    (fs : String → Option (List Char)) (fp : String)
    (hfp : isFlagLike fp = false) :
    (count_lines_in_file fs fp true).fsAccessed = false ∧
    (count_lines_in_file fs fp true).stdout = [] ∧
    (count_lines_in_file fs fp true).logs
      = [⟨.INFO, "Test mode: skipping actual file processing."⟩] ∧
    (main fs [fp, "--test"]).exitCode = 0 ∧
    (main fs [fp, "--test"]).stdout = [] ∧
    (main fs [fp, "--test"]).fsAccessed = false := by
  have hp := parse_arguments_test fp hfp
  refine ⟨?_, ?_, ?_, ?_, ?_, ?_⟩ <;>
    simp [main, hp, count_lines_in_file]

/-- C5 witness: `--test` on a nonexistent `ghost.txt` over an empty
filesystem. -/
theorem claim_C5_test_mode_frame_witness :
    (count_lines_in_file (fun _ => none) "ghost.txt" true).logs
      = [⟨.INFO, "Test mode: skipping actual file processing."⟩] ∧
    (main (fun _ => none) ["ghost.txt", "--test"]).exitCode = 0 ∧
    (main (fun _ => none) ["ghost.txt", "--test"]).stdout = [] ∧
    (main (fun _ => none) ["ghost.txt", "--test"]).fsAccessed = false := by
  have h := claim_C5_test_mode_frame (fun _ => none) "ghost.txt" (by decide)
  exact ⟨by rw [h.2.2.1], h.2.2.2.1, h.2.2.2.2.1, h.2.2.2.2.2⟩

/-- C6: with `--log-to-file` every emitted record goes to the fixed-name file
`logfile.log` and none to the console; without it, emitted records go to the
console and `logfile.log` is never created. -/
theorem claim_C6_log_routing
    (fs : String → Option (List Char)) (fp : String)
    (hfp : isFlagLike fp = false) :
    (main fs [fp, "--log-to-file"]).consoleLogs = [] ∧
    (main fs [fp, "--log-to-file"]).logfileCreated = true ∧
    (main fs [fp, "--log-to-file"]).fileLogs
      = emitted (set_logger { filepath := fp, test := false,
                              log_level := "WARNING", log_to_file := true })
          (count_lines_in_file fs fp false).logs ∧
    (set_logger { filepath := fp, test := false,
                  log_level := "WARNING", log_to_file := true }).filename
      = some "logfile.log" ∧
    (main fs [fp]).fileLogs = [] ∧
    (main fs [fp]).logfileCreated = false ∧
    (main fs [fp]).consoleLogs
      = emitted (set_logger { filepath := fp, test := false,
                              log_level := "WARNING", log_to_file := false })
          (count_lines_in_file fs fp false).logs := by
  have hp := parse_arguments_single fp hfp
  have hq := parse_arguments_log_to_file fp hfp
  refine ⟨?_, ?_, ?_, ?_, ?_, ?_, ?_⟩ <;>
    simp [main, hp, hq, set_logger]

/-- C6 witness: routing on a run over the file `a.txt` containing one line. -/
theorem claim_C6_log_routing_witness :
    (main (fun p => if p = "a.txt" then some ("x\n".data) else none)
        ["a.txt", "--log-to-file"]).consoleLogs = [] ∧
    (main (fun p => if p = "a.txt" then some ("x\n".data) else none)
        ["a.txt", "--log-to-file"]).logfileCreated = true ∧
    (main (fun p => if p = "a.txt" then some ("x\n".data) else none)
        ["a.txt"]).fileLogs = [] ∧
    (main (fun p => if p = "a.txt" then some ("x\n".data) else none)
        ["a.txt"]).logfileCreated = false := by
  have h := claim_C6_log_routing
    (fun p => if p = "a.txt" then some ("x\n".data) else none) "a.txt" (by decide)
  exact ⟨h.1, h.2.1, h.2.2.2.2.1, h.2.2.2.2.2.1⟩

/-- C7: the sink threshold equals the configured log level: a record is
emitted iff it is in the input and its severity is at or above the level's
numeric value, those below are discarded; in particular at the default
WARNING level the INFO records of a successful line count never reach the
console. -/
theorem claim_C7_severity_threshold
    (args : Args) (r : LogRecord) (logs : List LogRecord)
    (fs : String → Option (List Char)) (fp : String) (content : List Char)
    (hfp : isFlagLike fp = false)
    (hfs : fs fp = some content) :
    (set_logger args).threshold = levelNumber (pyUpper args.log_level) ∧
    (r ∈ emitted (set_logger args) logs
      ↔ r ∈ logs ∧ levelNumber (pyUpper args.log_level) ≤ r.level.value) ∧
    (main fs [fp]).consoleLogs = [] := by
  have hp := parse_arguments_single fp hfp
  refine ⟨?_, ?_, ?_⟩
  · by_cases hb : args.log_to_file <;> simp [set_logger, hb]
  · by_cases hb : args.log_to_file <;>
      simp [set_logger, hb, emitted, List.mem_filter]
  · simp [main, hp, count_lines_in_file, hfs, set_logger, emitted,
      pyUpper, levelNumber, LogLevel.value]

/-- C7 witness: an INFO record is discarded and an ERROR record emitted at the
WARNING threshold, and the successful default-flag run on a one-line `a.txt`
shows no console log text. -/
theorem claim_C7_severity_threshold_witness :
    (⟨.ERROR, "boom"⟩ ∈ emitted
        (set_logger { filepath := "a.txt", test := false,
                      log_level := "WARNING", log_to_file := false })
        [⟨.INFO, "quiet"⟩, ⟨.ERROR, "boom"⟩]
      ↔ (⟨.ERROR, "boom"⟩ : LogRecord) ∈
          ([⟨.INFO, "quiet"⟩, ⟨.ERROR, "boom"⟩] : List LogRecord) ∧
        levelNumber (pyUpper "WARNING") ≤ LogLevel.value .ERROR) ∧
    (main (fun p => if p = "a.txt" then some ("x\n".data) else none)
        ["a.txt"]).consoleLogs = [] := by
  have h := claim_C7_severity_threshold
    { filepath := "a.txt", test := false, log_level := "WARNING", log_to_file := false }
    ⟨.ERROR, "boom"⟩ [⟨.INFO, "quiet"⟩, ⟨.ERROR, "boom"⟩]
    (fun p => if p = "a.txt" then some ("x\n".data) else none)
    "a.txt" ("x\n".data) (by decide) (by decide)
  exact ⟨h.2.1, h.2.2⟩

/-- C8: an argument vector holding only the positional filepath parses to the
defaults: test mode off, log level WARNING, log-to-file off. -/
theorem claim_C8_defaults (fp : String) (hfp : isFlagLike fp = false) :
    parse_arguments [fp]
      = .ok { filepath := fp, test := false, log_level := "WARNING",
              log_to_file := false } :=
  parse_arguments_single fp hfp

/-- C8 witness: parsing `["a.txt"]`. -/
theorem claim_C8_defaults_witness :
    parse_arguments ["a.txt"]
      = .ok { filepath := "a.txt", test := false, log_level := "WARNING",
              log_to_file := false } :=
  claim_C8_defaults "a.txt" (by decide)

/-- C9: an existing empty file prints exactly ` <filepath> has 0 lines.` and
the run exits 0. -/
theorem claim_C9_empty_file
    (fs : String → Option (List Char)) (fp : String)
    (hfp : isFlagLike fp = false)
    (hfs : fs fp = some []) :
    (main fs [fp]).stdout = [" " ++ fp ++ " has 0 lines."] ∧
    (main fs [fp]).exitCode = 0 := by
  have hp := parse_arguments_single fp hfp
  have h0 : " " ++ fp ++ " has " ++ toString (0 : Nat) ++ " lines."
      = " " ++ fp ++ " has 0 lines." := by
    rw [String.append_assoc, String.append_assoc]
    exact congrArg (fun s => " " ++ fp ++ s) (by rfl)
  constructor
  · have h1 : (main fs [fp]).stdout
        = [" " ++ fp ++ " has " ++ toString (0 : Nat) ++ " lines."] := by
      simp [main, hp, count_lines_in_file, hfs, readlines, splitLinesAux]
    rw [h1, h0]
  · simp [main, hp]

/-- C9 witness: the empty file `empty.txt`. -/
theorem claim_C9_empty_file_witness :
    (main (fun p => if p = "empty.txt" then some [] else none)
        ["empty.txt"]).stdout = [" empty.txt has 0 lines."] ∧
    (main (fun p => if p = "empty.txt" then some [] else none)
        ["empty.txt"]).exitCode = 0 := by
  have h := claim_C9_empty_file
    (fun p => if p = "empty.txt" then some [] else none) "empty.txt" (by decide) (by decide)
  exact ⟨by rw [h.1]; decide, h.2⟩

/-- C10: the line counter is deterministic: two runs with the same filepath,
the same test-mode value and the same file contents (or the same absence of
the file) produce identical results — the same standard output, the same log
records and the same filesystem-access behaviour. -/
theorem claim_C10_deterministic
    (fs1 fs2 : String → Option (List Char)) (fp : String) (t : Bool)
    (h : fs1 fp = fs2 fp) :
    count_lines_in_file fs1 fp t = count_lines_in_file fs2 fp t := by
  unfold count_lines_in_file
  rw [h]

/-- C10 witness: two filesystems agreeing at `a.txt` give identical results
there. -/
theorem claim_C10_deterministic_witness :
    count_lines_in_file (fun p => if p = "a.txt" then some ("x\n".data) else none)
        "a.txt" false
      = count_lines_in_file (fun _ => some ("x\n".data)) "a.txt" false :=
  claim_C10_deterministic
    (fun p => if p = "a.txt" then some ("x\n".data) else none)
    (fun _ => some ("x\n".data)) "a.txt" false (by decide)

end ArgparseExample
